import Mathlib

/-!
# kernel32/file/deviceio.c : DeviceIoControl and GetOverlappedResult

A shallow embedding of the two routines of `kernel32/file/deviceio.c`.

* Machine integers are natural numbers.  `NTSTATUS` values are handled as their 32-bit
  pattern; the casts made by the `NT_SUCCESS` / `NT_ERROR` macros and the stores into a
  `DWORD` are written as an explicit `% 2 ^ 32`.
* The system services the routines call (`NtFsControlFile`, `NtDeviceIoControlFile`,
  `NtWaitForSingleObject`, `WaitForSingleObject`, the status to error table) are the fields
  of a `Kernel`: arbitrary functions over an abstract kernel state, which may rewrite the
  completion record they were handed.
* The memory the routines touch is held in a `World`; every call of a service and every
  store made by the routines themselves is appended, in program order, to `World.trace`.
-/

namespace Kernel32

/-! ## Types and constants -/

abbrev HANDLE := Nat
abbrev DWORD := Nat
abbrev NTSTATUS := Nat
abbrev ULONG_PTR := Nat
abbrev LPVOID := Nat
abbrev BOOL := Bool

/-- Modelled from the spec: the header constant `FILE_DEVICE_FILE_SYSTEM` (the reserved
filesystem device class, 0x0009) is not part of the sources. -/
def FILE_DEVICE_FILE_SYSTEM : DWORD := 0x00000009

/-- Modelled from the spec: the header constant `STATUS_PENDING` (the "pending" status,
a success-class status) is not part of the sources; the NT value is used. -/
def STATUS_PENDING : NTSTATUS := 0x00000103

/-- Modelled from the spec: the header constant `WAIT_TIMEOUT` is not part of the sources;
the Win32 value is used. -/
def WAIT_TIMEOUT : DWORD := 258

/-- Modelled from the spec: the header constant `INFINITE` ("block indefinitely") is not
part of the sources; the Win32 value is used. -/
def INFINITE : DWORD := 0xFFFFFFFF

/-- Modelled from the spec: the header constant `ERROR_IO_INCOMPLETE` (OperationIncomplete)
is not part of the sources; the Win32 value is used. -/
def ERROR_IO_INCOMPLETE : DWORD := 996

/-- Modelled from the spec: the header constant `ERROR_IO_PENDING` (OperationPending) is not
part of the sources; the Win32 value is used. -/
def ERROR_IO_PENDING : DWORD := 997

/-- Modelled from the spec: the header macro `NT_SUCCESS(Status)`, that is
`((NTSTATUS)(Status)) >= 0` on a signed 32-bit status: the success and informational
classes (top bit clear). -/
def NT_SUCCESS (Status : Nat) : Bool := decide (Status % 2 ^ 32 < 2 ^ 31)

/-- Modelled from the spec: the header macro `NT_ERROR(Status)`, that is
`((ULONG)(Status) >> 30) == 3`: the error class (top two bits 11). -/
def NT_ERROR (Status : Nat) : Bool := (Status % 2 ^ 32) >>> 30 == 3

/-- A pointer argument, as far as the routines look at it: `NULL`, or the address of the
caller's object (whose contents live in the `World`). -/
inductive Ptr where
  | NULL
  | ref
  deriving DecidableEq, Repr

/-- The fields of `OVERLAPPED`. -/
structure OVERLAPPED where
  Internal : ULONG_PTR
  InternalHigh : ULONG_PTR
  Offset : DWORD
  OffsetHigh : DWORD
  hEvent : HANDLE
  deriving DecidableEq, Repr

/-- The fields of `IO_STATUS_BLOCK`. -/
structure IO_STATUS_BLOCK where
  Status : NTSTATUS
  Information : ULONG_PTR
  deriving DecidableEq, Repr

/-- Which completion record a dispatch was given as its `IoStatusBlock` argument. -/
inductive BlockRef where
  | Overlapped
  | Iosb
  deriving DecidableEq, Repr

/-- The argument list shared by `NtFsControlFile` and `NtDeviceIoControlFile`. -/
structure IoctlArgs where
  FileHandle : HANDLE
  Event : HANDLE
  ApcRoutine : Ptr
  ApcContext : Ptr
  IoStatusBlock : BlockRef
  IoControlCode : DWORD
  InputBuffer : LPVOID
  InputBufferLength : DWORD
  OutputBuffer : LPVOID
  OutputBufferLength : DWORD
  deriving DecidableEq, Repr

/-- What the routines do to the outside: the services they call (with the contents of the
completion record at the time of a dispatch) and the stores they make. -/
inductive Effect where
  | NtFsControlFile (a : IoctlArgs) (blk : IO_STATUS_BLOCK)
  | NtDeviceIoControlFile (a : IoctlArgs) (blk : IO_STATUS_BLOCK)
  | NtWaitForSingleObject (Handle : HANDLE) (Alertable : BOOL)
  | WaitForSingleObject (hHandle : HANDLE) (dwMilliseconds : DWORD)
  | SetLastError (dwErrCode : DWORD)
  | SetLastErrorByStatus (Status : NTSTATUS)
  | StoreInternal (v : ULONG_PTR)
  | StoreBytes (v : DWORD)
  | AccessViolation
  deriving DecidableEq, Repr

/-- The system services, over an abstract kernel state.  A service that works on a
completion record receives its current contents and returns the new ones. -/
structure Kernel (σ : Type) where
  NtFsControlFile : IoctlArgs → IO_STATUS_BLOCK → σ → NTSTATUS × IO_STATUS_BLOCK × σ
  NtDeviceIoControlFile : IoctlArgs → IO_STATUS_BLOCK → σ → NTSTATUS × IO_STATUS_BLOCK × σ
  NtWaitForSingleObject : HANDLE → BOOL → IO_STATUS_BLOCK → σ → NTSTATUS × IO_STATUS_BLOCK × σ
  WaitForSingleObject : HANDLE → DWORD → IO_STATUS_BLOCK → DWORD → σ →
    DWORD × IO_STATUS_BLOCK × DWORD × σ
  RtlNtStatusToDosError : NTSTATUS → DWORD
  ReadFaults : σ → Bool

/-- The memory the routines work on. `Overlapped` is the object behind `lpOverlapped`,
`Iosb` the local completion record of the synchronous path (arbitrary on entry),
`Bytes` the `DWORD` behind `lpBytesReturned` / `lpNumberOfBytesTransferred`. -/
structure World (σ : Type) where
  kernel : σ
  Overlapped : OVERLAPPED
  Iosb : IO_STATUS_BLOCK
  Bytes : DWORD
  LastError : DWORD
  trace : List Effect

/-- How a call ends: it returns a `BOOL`, or it raises an access violation. -/
inductive Outcome (σ : Type) where
  | returned (ret : BOOL) (w : World σ)
  | fault (w : World σ)

variable {σ : Type}

def Outcome.world : Outcome σ → World σ
  | .returned _ w => w
  | .fault w => w

def Outcome.ret : Outcome σ → Option BOOL
  | .returned r _ => some r
  | .fault _ => none

def World.emit (w : World σ) (e : Effect) : World σ :=
  { w with trace := w.trace ++ [e] }

/-- The first two fields of an `OVERLAPPED`, seen through `(PIO_STATUS_BLOCK)lpOverlapped`. -/
def OVERLAPPED.asBlock (o : OVERLAPPED) : IO_STATUS_BLOCK :=
  { Status := o.Internal, Information := o.InternalHigh }

def OVERLAPPED.setBlock (o : OVERLAPPED) (b : IO_STATUS_BLOCK) : OVERLAPPED :=
  { o with Internal := b.Status, InternalHigh := b.Information }

def World.block (w : World σ) : BlockRef → IO_STATUS_BLOCK
  | .Overlapped => w.Overlapped.asBlock
  | .Iosb => w.Iosb

def World.setBlock (w : World σ) (r : BlockRef) (b : IO_STATUS_BLOCK) : World σ :=
  match r with
  | .Overlapped => { w with Overlapped := w.Overlapped.setBlock b }
  | .Iosb => { w with Iosb := b }

/-! ## The services as called from the routines -/

/-- The call `SetLastError(dwErrCode)`. -/
def SetLastError (dwErrCode : DWORD) (w : World σ) : World σ :=
  { w.emit (.SetLastError dwErrCode) with LastError := dwErrCode }

/-- Modelled from the spec: `SetLastErrorByStatus(Status)` is not part of the sources; it
sets the last error to the code the fixed status to error table gives for `Status`. -/
def SetLastErrorByStatus (K : Kernel σ) (Status : NTSTATUS) (w : World σ) : World σ :=
  { w.emit (.SetLastErrorByStatus Status) with LastError := K.RtlNtStatusToDosError Status }

/-- The call `Status = NtFsControlFile(...)`. -/
def callNtFsControlFile (K : Kernel σ) (a : IoctlArgs) (w : World σ) : NTSTATUS × World σ :=
  let blk := w.block a.IoStatusBlock
  let r := K.NtFsControlFile a blk w.kernel
  (r.1, { (w.emit (.NtFsControlFile a blk)).setBlock a.IoStatusBlock r.2.1 with kernel := r.2.2 })

/-- The call `Status = NtDeviceIoControlFile(...)`. -/
def callNtDeviceIoControlFile (K : Kernel σ) (a : IoctlArgs) (w : World σ) :
    NTSTATUS × World σ :=
  let blk := w.block a.IoStatusBlock
  let r := K.NtDeviceIoControlFile a blk w.kernel
  (r.1, { (w.emit (.NtDeviceIoControlFile a blk)).setBlock a.IoStatusBlock r.2.1
          with kernel := r.2.2 })

/-- The call `Status = NtWaitForSingleObject(Handle, Alertable, NULL)` while the request that targets
the local completion record is in flight. -/
def callNtWaitForSingleObject (K : Kernel σ) (Handle : HANDLE) (Alertable : BOOL)
    (w : World σ) : NTSTATUS × World σ :=
  let r := K.NtWaitForSingleObject Handle Alertable w.Iosb w.kernel
  (r.1, { w.emit (.NtWaitForSingleObject Handle Alertable) with Iosb := r.2.1, kernel := r.2.2 })

/-- The call `WaitStatus = WaitForSingleObject(hObject, dwMilliseconds)` while the request that
targets the descriptor is in flight; the service may set the last error. -/
def callWaitForSingleObject (K : Kernel σ) (hObject : HANDLE) (dwMilliseconds : DWORD)
    (w : World σ) : DWORD × World σ :=
  let r := K.WaitForSingleObject hObject dwMilliseconds w.Overlapped.asBlock w.LastError w.kernel
  (r.1, { w.emit (.WaitForSingleObject hObject dwMilliseconds) with
          Overlapped := w.Overlapped.setBlock r.2.1, LastError := r.2.2.1, kernel := r.2.2.2 })

/-- The store `lpOverlapped->Internal = v`. -/
def storeInternal (v : ULONG_PTR) (w : World σ) : World σ :=
  { w.emit (.StoreInternal v) with Overlapped := { w.Overlapped with Internal := v } }

/-- The store `*p = v` for a valid `DWORD` output pointer `p`; the value is cut to 32 bits. -/
def writeBytes (v : ULONG_PTR) (w : World σ) : World σ :=
  { w.emit (.StoreBytes (v % 2 ^ 32)) with Bytes := v % 2 ^ 32 }

/-- The store `*p = v` for a `DWORD` output pointer `p`: an access violation when `p` is `NULL`. -/
def storeBytes (p : Ptr) (v : ULONG_PTR) (w : World σ) : Option (World σ) :=
  match p with
  | .NULL => none
  | .ref => some (writeBytes v w)

/-! ## DeviceIoControl -/

/-- The routine `DeviceIoControl` (deviceio.c, lines 20-164). -/
def DeviceIoControl (K : Kernel σ) (hDevice : HANDLE) (dwIoControlCode : DWORD)
    (lpInBuffer : LPVOID) (nInBufferSize : DWORD) (lpOutBuffer : LPVOID)
    (nOutBufferSize : DWORD) (lpBytesReturned : Ptr) (lpOverlapped : Ptr)
    (w : World σ) : Outcome σ :=
  -- Check what kind of IOCTL to send
  let FsIoCtl := (dwIoControlCode >>> 16) == FILE_DEVICE_FILE_SYSTEM
  -- Check for async
  if lpOverlapped ≠ Ptr.NULL then
    -- Set pending status
    let w := storeInternal STATUS_PENDING w
    -- Check if there is an APC context
    let ApcContext := if (w.Overlapped.hEvent &&& 0x1) ≠ 0 then Ptr.NULL else lpOverlapped
    let a : IoctlArgs :=
      { FileHandle := hDevice, Event := w.Overlapped.hEvent, ApcRoutine := Ptr.NULL,
        ApcContext := ApcContext, IoStatusBlock := BlockRef.Overlapped,
        IoControlCode := dwIoControlCode, InputBuffer := lpInBuffer,
        InputBufferLength := nInBufferSize, OutputBuffer := lpOutBuffer,
        OutputBufferLength := nOutBufferSize }
    -- Send file system control, otherwise send a device control
    let r := if FsIoCtl then callNtFsControlFile K a w else callNtDeviceIoControlFile K a w
    let Status := r.1
    let w := r.2
    -- Check for information instead of failure
    let w :=
      if (!NT_ERROR Status) && lpBytesReturned ≠ Ptr.NULL then
        -- Protect with SEH: return the bytes, or zero bytes when the read faults
        if K.ReadFaults w.kernel then writeBytes 0 w
        else writeBytes w.Overlapped.InternalHigh w
      else w
    -- Now check for any kind of failure except pending
    if (!NT_SUCCESS Status) || Status == STATUS_PENDING then
      Outcome.returned false (SetLastErrorByStatus K Status w)
    else
      Outcome.returned true w
  else
    let a : IoctlArgs :=
      { FileHandle := hDevice, Event := 0, ApcRoutine := Ptr.NULL,
        ApcContext := Ptr.NULL, IoStatusBlock := BlockRef.Iosb,
        IoControlCode := dwIoControlCode, InputBuffer := lpInBuffer,
        InputBufferLength := nInBufferSize, OutputBuffer := lpOutBuffer,
        OutputBufferLength := nOutBufferSize }
    -- Sync case: send file system code, or device code instead
    let r := if FsIoCtl then callNtFsControlFile K a w else callNtDeviceIoControlFile K a w
    -- Now check if the operation is not done yet
    let r :=
      if r.1 == STATUS_PENDING then
        -- Wait for it and get the final status
        let r2 := callNtWaitForSingleObject K hDevice false r.2
        (if NT_SUCCESS r2.1 then r2.2.Iosb.Status else r2.1, r2.2)
      else r
    let Status := r.1
    let w := r.2
    -- Check for success
    if NT_SUCCESS Status then
      -- Return the byte count
      match storeBytes lpBytesReturned w.Iosb.Information w with
      | none => Outcome.fault (w.emit Effect.AccessViolation)
      | some w => Outcome.returned true w
    else
      -- Check for informational or warning failure
      if !NT_ERROR Status then
        match storeBytes lpBytesReturned w.Iosb.Information w with
        | none => Outcome.fault (w.emit Effect.AccessViolation)
        | some w => Outcome.returned false (SetLastErrorByStatus K Status w)
      else
        -- Return a failure
        Outcome.returned false (SetLastErrorByStatus K Status w)

/-! ## GetOverlappedResult -/

/-- The routine `GetOverlappedResult` (deviceio.c, lines 170-227).  Both pointers are
dereferenced unconditionally; they refer to `World.Overlapped` and `World.Bytes`. -/
def GetOverlappedResult (K : Kernel σ) (hFile : HANDLE) (bWait : BOOL) (w : World σ) :
    Outcome σ :=
  -- Check for pending operation
  let r : Option BOOL × World σ :=
    if w.Overlapped.Internal == STATUS_PENDING then
      -- Check if the caller is okay with waiting
      let r :=
        if !bWait then
          -- Set timeout
          (WAIT_TIMEOUT, w)
        else
          -- Wait for the result
          let hObject := if w.Overlapped.hEvent ≠ 0 then w.Overlapped.hEvent else hFile
          callWaitForSingleObject K hObject INFINITE w
      let WaitStatus := r.1
      let w := r.2
      -- Check for timeout
      if WaitStatus == WAIT_TIMEOUT then
        -- We have to override the last error with INCOMPLETE instead
        (some false, SetLastError ERROR_IO_INCOMPLETE w)
      -- Fail if we had an error; the last error is already set
      else if WaitStatus != 0 then (some false, w)
      else (none, w)
    else (none, w)
  match r.1 with
  | some b => Outcome.returned b r.2
  | none =>
    let w := r.2
    -- Return bytes transferred
    let w := writeBytes w.Overlapped.InternalHigh w
    -- Check for failure during I/O
    if !NT_SUCCESS w.Overlapped.Internal then
      -- Set the error and fail
      Outcome.returned false (SetLastErrorByStatus K (w.Overlapped.Internal % 2 ^ 32) w)
    else
      -- All done
      Outcome.returned true w

/-! ## Reading a trace -/

/-- The two dispatch channels. -/
inductive Plane where
  | FilesystemPlane
  | DevicePlane
  deriving DecidableEq, Repr

/-- The channel a trace entry dispatches on, if it is a dispatch. -/
def Effect.plane : Effect → Option Plane
  | .NtFsControlFile _ _ => some Plane.FilesystemPlane
  | .NtDeviceIoControlFile _ _ => some Plane.DevicePlane
  | _ => none

/-- The dispatches of a trace, in order. -/
def dispatches (t : List Effect) : List Plane := t.filterMap Effect.plane

/-- The completion record a trace entry hands to its dispatch, if it is a dispatch. -/
def Effect.block : Effect → Option IO_STATUS_BLOCK
  | .NtFsControlFile _ blk => some blk
  | .NtDeviceIoControlFile _ blk => some blk
  | _ => none

/-- The completion record each dispatch of a trace was handed, in order. -/
def dispatchBlocks (t : List Effect) : List IO_STATUS_BLOCK := t.filterMap Effect.block

def Effect.isWait : Effect → Bool
  | .NtWaitForSingleObject _ _ => true
  | .WaitForSingleObject _ _ => true
  | _ => false

def Effect.setsLastError : Effect → Bool
  | .SetLastError _ => true
  | .SetLastErrorByStatus _ => true
  | _ => false

def Effect.isStoreInternal : Effect → Bool
  | .StoreInternal _ => true
  | _ => false

def Effect.isStoreBytes : Effect → Bool
  | .StoreBytes _ => true
  | _ => false

/-- RequestClassifier as the spec words it (section 4.2): the top 16 bits of the code are
compared with the filesystem device class. -/
def classify (controlCode : DWORD) : Plane :=
  if controlCode >>> 16 = FILE_DEVICE_FILE_SYSTEM then Plane.FilesystemPlane
  else Plane.DevicePlane

/-- The service behind a channel. -/
def Kernel.service (K : Kernel σ) :
    Plane → IoctlArgs → IO_STATUS_BLOCK → σ → NTSTATUS × IO_STATUS_BLOCK × σ
  | .FilesystemPlane => K.NtFsControlFile
  | .DevicePlane => K.NtDeviceIoControlFile

/-- The trace entry of a dispatch on a channel. -/
def Effect.dispatch : Plane → IoctlArgs → IO_STATUS_BLOCK → Effect
  | .FilesystemPlane => Effect.NtFsControlFile
  | .DevicePlane => Effect.NtDeviceIoControlFile

/-- The argument list of the dispatch of a synchronous call. -/
def syncArgs (hDevice : HANDLE) (dwIoControlCode : DWORD) (lpInBuffer : LPVOID)
    (nInBufferSize : DWORD) (lpOutBuffer : LPVOID) (nOutBufferSize : DWORD) : IoctlArgs :=
  { FileHandle := hDevice, Event := 0, ApcRoutine := Ptr.NULL, ApcContext := Ptr.NULL,
    IoStatusBlock := BlockRef.Iosb, IoControlCode := dwIoControlCode,
    InputBuffer := lpInBuffer, InputBufferLength := nInBufferSize,
    OutputBuffer := lpOutBuffer, OutputBufferLength := nOutBufferSize }

/-- The argument list of the dispatch of an asynchronous call on a descriptor with event
handle `hEvent`. -/
def asyncArgs (hDevice : HANDLE) (dwIoControlCode : DWORD) (lpInBuffer : LPVOID)
    (nInBufferSize : DWORD) (lpOutBuffer : LPVOID) (nOutBufferSize : DWORD)
    (hEvent : HANDLE) : IoctlArgs :=
  { FileHandle := hDevice, Event := hEvent, ApcRoutine := Ptr.NULL,
    ApcContext := if (hEvent &&& 0x1) ≠ 0 then Ptr.NULL else Ptr.ref,
    IoStatusBlock := BlockRef.Overlapped, IoControlCode := dwIoControlCode,
    InputBuffer := lpInBuffer, InputBufferLength := nInBufferSize,
    OutputBuffer := lpOutBuffer, OutputBufferLength := nOutBufferSize }

/-- What a call appended to the trace of the world it started from. -/
def Outcome.effects (o : Outcome σ) (w0 : World σ) : List Effect :=
  o.world.trace.drop w0.trace.length

/-- The world an asynchronous call reaches before it decides what to return, given what
the dispatch returned. -/
def asyncWorld (K : Kernel σ) (hDevice : HANDLE) (c : DWORD) (lpInBuffer : LPVOID)
    (nInBufferSize : DWORD) (lpOutBuffer : LPVOID) (nOutBufferSize : DWORD)
    (lpBytesReturned : Ptr) (w : World σ) (st : NTSTATUS) (blk : IO_STATUS_BLOCK) (k : σ) :
    World σ :=
  { kernel := k, Overlapped := w.Overlapped.setBlock blk, Iosb := w.Iosb,
    Bytes := if NT_ERROR st = true ∨ lpBytesReturned = Ptr.NULL then w.Bytes
             else if K.ReadFaults k = true then 0 else blk.Information % 2 ^ 32,
    LastError := w.LastError,
    trace := w.trace ++
      ([Effect.StoreInternal STATUS_PENDING,
        Effect.dispatch (classify c)
          (asyncArgs hDevice c lpInBuffer nInBufferSize lpOutBuffer nOutBufferSize
            w.Overlapped.hEvent)
          ⟨STATUS_PENDING, w.Overlapped.InternalHigh⟩]
       ++ (if NT_ERROR st = true ∨ lpBytesReturned = Ptr.NULL then []
           else [Effect.StoreBytes
                  (if K.ReadFaults k = true then 0 else blk.Information % 2 ^ 32)])) }

/-! ## A scripted kernel, for concrete runs -/

/-- A small status to error table. -/
def demoStatusToError (Status : NTSTATUS) : DWORD :=
  if Status = 0 then 0
  else if Status = 0x00000103 then 997
  else if Status = 0x80000005 then 234
  else if Status = 0xC0000008 then 6
  else 317

/-- A kernel whose dispatch returns `st` and writes `blk` to the completion record (leaves it
alone when `blk` is `none`), and whose waits return `wst` and write `wblk` likewise.  The
kernel state counts the services called. -/
def scripted (st : NTSTATUS) (blk : Option IO_STATUS_BLOCK) (wst : Nat)
    (wblk : Option IO_STATUS_BLOCK) : Kernel Nat where
  NtFsControlFile := fun _ b n => (st, blk.getD b, n + 1)
  NtDeviceIoControlFile := fun _ b n => (st, blk.getD b, n + 1)
  NtWaitForSingleObject := fun _ _ b n => (wst, wblk.getD b, n + 1)
  WaitForSingleObject := fun _ _ b e n => (wst, wblk.getD b, if wst = 0 then e else 6, n + 1)
  RtlNtStatusToDosError := demoStatusToError
  ReadFaults := fun _ => false

/-- A world to start concrete runs from: a descriptor with stale contents, an arbitrary
local record, and output cell and last error holding recognisable values. -/
def world0 : World Nat :=
  { kernel := 0,
    Overlapped := { Internal := 0xC0000008, InternalHigh := 77, Offset := 0, OffsetHigh := 0,
                    hEvent := 0 },
    Iosb := { Status := 0xDEAD, Information := 0xBEEF },
    Bytes := 12345,
    LastError := 42,
    trace := [] }

/-- A world whose descriptor is in flight: Internal is STATUS_PENDING, no event handle. -/
def worldPending : World Nat :=
  { kernel := 0,
    Overlapped := { Internal := 0x103, InternalHigh := 77, Offset := 0, OffsetHigh := 0,
                    hEvent := 0 },
    Iosb := { Status := 0xDEAD, Information := 0xBEEF },
    Bytes := 12345,
    LastError := 42,
    trace := [] }

/-- A world whose descriptor has completed: the given terminal status and byte count, and
an event handle. -/
def worldDone (Internal InternalHigh : ULONG_PTR) : World Nat :=
  { kernel := 0,
    Overlapped := { Internal := Internal, InternalHigh := InternalHigh, Offset := 0,
                    OffsetHigh := 0, hEvent := 0x44 },
    Iosb := { Status := 0xDEAD, Information := 0xBEEF },
    Bytes := 12345,
    LastError := 42,
    trace := [] }

end Kernel32

/-! ## Theorems -/

namespace Kernel32
variable {σ : Type}

/-! ### The asynchronous path in closed form -/

@[simp]
theorem Effect.dispatch_setsLastError (p : Plane) (a : IoctlArgs)
    (b : IO_STATUS_BLOCK) : (Effect.dispatch p a b).setsLastError = false := by
  cases p <;> rfl

@[simp]
theorem Effect.dispatch_isWait (p : Plane) (a : IoctlArgs) (b : IO_STATUS_BLOCK) :
    (Effect.dispatch p a b).isWait = false := by
  cases p <;> rfl

@[simp]
theorem Effect.dispatch_isStoreInternal (p : Plane) (a : IoctlArgs)
    (b : IO_STATUS_BLOCK) : (Effect.dispatch p a b).isStoreInternal = false := by
  cases p <;> rfl

@[simp]
theorem Effect.dispatch_isStoreBytes (p : Plane) (a : IoctlArgs)
    (b : IO_STATUS_BLOCK) : (Effect.dispatch p a b).isStoreBytes = false := by
  cases p <;> rfl

@[simp]
theorem Effect.dispatch_plane (p : Plane) (a : IoctlArgs) (b : IO_STATUS_BLOCK) :
    (Effect.dispatch p a b).plane = some p := by
  cases p <;> rfl

theorem DeviceIoControl_async_eq (K : Kernel σ) (hDevice : HANDLE) (c : DWORD)
    (lpInBuffer : LPVOID) (nInBufferSize : DWORD) (lpOutBuffer : LPVOID)
    (nOutBufferSize : DWORD) (lpBytesReturned : Ptr) (w : World σ)
    (st : NTSTATUS) (blk : IO_STATUS_BLOCK) (k : σ)
    (hd : K.service (classify c)
            (asyncArgs hDevice c lpInBuffer nInBufferSize lpOutBuffer nOutBufferSize
              w.Overlapped.hEvent)
            ⟨STATUS_PENDING, w.Overlapped.InternalHigh⟩ w.kernel = (st, blk, k)) :
    DeviceIoControl K hDevice c lpInBuffer nInBufferSize lpOutBuffer nOutBufferSize
        lpBytesReturned Ptr.ref w
      = if NT_SUCCESS st = false ∨ st = STATUS_PENDING then
          Outcome.returned false
            (SetLastErrorByStatus K st
              (asyncWorld K hDevice c lpInBuffer nInBufferSize lpOutBuffer nOutBufferSize
                lpBytesReturned w st blk k))
        else
          Outcome.returned true
            (asyncWorld K hDevice c lpInBuffer nInBufferSize lpOutBuffer nOutBufferSize
              lpBytesReturned w st blk k) := by
  have hpe : NT_ERROR STATUS_PENDING = false := by decide
  have hps : NT_SUCCESS STATUS_PENDING = true := by decide
  unfold DeviceIoControl asyncWorld
  by_cases hp : st = STATUS_PENDING
  · subst hp
    by_cases hc : c >>> 16 = FILE_DEVICE_FILE_SYSTEM <;>
      simp [hc, classify, Kernel.service, asyncArgs] at hd <;>
      cases lpBytesReturned <;> by_cases hf : K.ReadFaults k = true <;>
      simp [hc, hd, hf, hpe, hps, classify, asyncArgs, Effect.dispatch,
        callNtFsControlFile, callNtDeviceIoControlFile, storeInternal, writeBytes,
        SetLastErrorByStatus, World.emit, World.setBlock, World.block, OVERLAPPED.asBlock,
        OVERLAPPED.setBlock]
  · by_cases hc : c >>> 16 = FILE_DEVICE_FILE_SYSTEM <;>
      simp [hc, classify, Kernel.service, asyncArgs] at hd <;>
      cases lpBytesReturned <;> by_cases hf : K.ReadFaults k = true <;>
      by_cases he : NT_ERROR st = true <;> by_cases hs : NT_SUCCESS st = true <;>
      simp [hc, hd, hf, he, hs, hp, classify, asyncArgs, Effect.dispatch,
        callNtFsControlFile, callNtDeviceIoControlFile, storeInternal, writeBytes,
        SetLastErrorByStatus, World.emit, World.setBlock, World.block, OVERLAPPED.asBlock,
        OVERLAPPED.setBlock]

/-- C1. Whatever the mode, a call of DeviceIoControl makes exactly one dispatch: on
NtFsControlFile when the control code shifted right by 16 is FILE_DEVICE_FILE_SYSTEM
(0x0009), on NtDeviceIoControlFile for every other code.  Hence two codes with the same
top 16 bits are dispatched on the same channel. -/
theorem DeviceIoControl_dispatch_plane (K : Kernel σ) (hDevice : HANDLE) (c : DWORD)
    (lpInBuffer : LPVOID) (nInBufferSize : DWORD) (lpOutBuffer : LPVOID)
    (nOutBufferSize : DWORD) (lpBytesReturned lpOverlapped : Ptr) (w : World σ) :
    dispatches ((DeviceIoControl K hDevice c lpInBuffer nInBufferSize lpOutBuffer
        nOutBufferSize lpBytesReturned lpOverlapped w).effects w)
      = [if c >>> 16 = 0x0009 then Plane.FilesystemPlane else Plane.DevicePlane]
    ∧ ∀ c2 : DWORD, c2 / 2 ^ 16 = c / 2 ^ 16 →
        dispatches ((DeviceIoControl K hDevice c2 lpInBuffer nInBufferSize lpOutBuffer
          nOutBufferSize lpBytesReturned lpOverlapped w).effects w)
        = dispatches ((DeviceIoControl K hDevice c lpInBuffer nInBufferSize lpOutBuffer
          nOutBufferSize lpBytesReturned lpOverlapped w).effects w) := by
  have key : ∀ d : DWORD,
      dispatches ((DeviceIoControl K hDevice d lpInBuffer nInBufferSize lpOutBuffer
        nOutBufferSize lpBytesReturned lpOverlapped w).effects w)
      = [if d >>> 16 = 0x0009 then Plane.FilesystemPlane else Plane.DevicePlane] := by
    intro d
    unfold DeviceIoControl
    cases lpOverlapped <;> cases lpBytesReturned <;>
      by_cases hd : d >>> 16 = 9 <;>
      simp [hd, FILE_DEVICE_FILE_SYSTEM, Outcome.effects, callNtFsControlFile,
        callNtDeviceIoControlFile, callNtWaitForSingleObject, storeBytes, writeBytes,
        storeInternal, SetLastErrorByStatus, World.emit, World.setBlock, dispatches,
        Effect.plane] <;>
      split_ifs <;>
      simp [Outcome.world, dispatches, Effect.plane, List.filterMap_append]
  refine ⟨key c, fun c2 h => ?_⟩
  rw [key c2, key c, Nat.shiftRight_eq_div_pow, Nat.shiftRight_eq_div_pow, h]

/-- C1, run: the codes 0x9FFFF and 0x90000 differ in their low 16 bits only. -/
theorem DeviceIoControl_dispatch_plane_witness :
    dispatches ((DeviceIoControl (scripted 0 (some ⟨0, 5⟩) 0 none) 7 0x9FFFF 0 0 0 0
        Ptr.ref Ptr.NULL world0).effects world0)
      = dispatches ((DeviceIoControl (scripted 0 (some ⟨0, 5⟩) 0 none) 7 0x90000 0 0 0 0
        Ptr.ref Ptr.NULL world0).effects world0) :=
  (DeviceIoControl_dispatch_plane (scripted 0 (some ⟨0, 5⟩) 0 none) 7 0x90000 0 0 0 0
    Ptr.ref Ptr.NULL world0).2 0x9FFFF (by decide)

/-- C2. Synchronous mode with a byte-count output: when the dispatch returns at once a
success status other than STATUS_PENDING, leaving the local completion record with byte
count B, DeviceIoControl returns TRUE and stores B (cut to a DWORD, so B itself when it
fits 32 bits, 0 when B is 0) in the output; besides the dispatch and that store it does
nothing: no wait, no last error. -/
theorem DeviceIoControl_sync_immediate_success (K : Kernel σ) (hDevice : HANDLE) (c : DWORD)
    (lpInBuffer : LPVOID) (nInBufferSize : DWORD) (lpOutBuffer : LPVOID)
    (nOutBufferSize : DWORD) (w : World σ) (st : NTSTATUS) (blk : IO_STATUS_BLOCK) (k : σ)
    (hd : K.service (classify c)
            (syncArgs hDevice c lpInBuffer nInBufferSize lpOutBuffer nOutBufferSize)
            w.Iosb w.kernel = (st, blk, k))
    (hs : NT_SUCCESS st = true) (hp : st ≠ STATUS_PENDING) :
    DeviceIoControl K hDevice c lpInBuffer nInBufferSize lpOutBuffer nOutBufferSize
        Ptr.ref Ptr.NULL w
      = Outcome.returned true
          { kernel := k, Overlapped := w.Overlapped, Iosb := blk,
            Bytes := blk.Information % 2 ^ 32, LastError := w.LastError,
            trace := w.trace ++
              [Effect.dispatch (classify c)
                 (syncArgs hDevice c lpInBuffer nInBufferSize lpOutBuffer nOutBufferSize) w.Iosb,
               Effect.StoreBytes (blk.Information % 2 ^ 32)] }
    ∧ (blk.Information < 2 ^ 32 →
        (DeviceIoControl K hDevice c lpInBuffer nInBufferSize lpOutBuffer nOutBufferSize
          Ptr.ref Ptr.NULL w).world.Bytes = blk.Information) := by
  have main : DeviceIoControl K hDevice c lpInBuffer nInBufferSize lpOutBuffer nOutBufferSize
        Ptr.ref Ptr.NULL w
      = Outcome.returned true
          { kernel := k, Overlapped := w.Overlapped, Iosb := blk,
            Bytes := blk.Information % 2 ^ 32, LastError := w.LastError,
            trace := w.trace ++
              [Effect.dispatch (classify c)
                 (syncArgs hDevice c lpInBuffer nInBufferSize lpOutBuffer nOutBufferSize) w.Iosb,
               Effect.StoreBytes (blk.Information % 2 ^ 32)] } := by
    unfold DeviceIoControl
    by_cases hc : c >>> 16 = FILE_DEVICE_FILE_SYSTEM <;>
      simp [hc, classify, Kernel.service, syncArgs] at hd <;>
      simp [hc, hd, hs, hp, classify, syncArgs, Effect.dispatch, callNtFsControlFile,
        callNtDeviceIoControlFile, storeBytes, writeBytes, World.emit, World.setBlock,
        World.block]
  refine ⟨main, fun hB => ?_⟩
  rw [main]
  exact Nat.mod_eq_of_lt hB

/-- C2, run: 0-byte buffers and a device that reports success with 0 bytes give TRUE with
0 bytes, the last error untouched. -/
theorem DeviceIoControl_sync_immediate_success_witness :
    (DeviceIoControl (scripted 0 (some ⟨0, 0⟩) 0 none) 7 0x220000 0 0 0 0
        Ptr.ref Ptr.NULL world0).ret = some true
    ∧ (DeviceIoControl (scripted 0 (some ⟨0, 0⟩) 0 none) 7 0x220000 0 0 0 0
        Ptr.ref Ptr.NULL world0).world.Bytes = 0
    ∧ (DeviceIoControl (scripted 0 (some ⟨0, 0⟩) 0 none) 7 0x220000 0 0 0 0
        Ptr.ref Ptr.NULL world0).world.LastError = 42 := by
  have h := (DeviceIoControl_sync_immediate_success (scripted 0 (some ⟨0, 0⟩) 0 none)
    7 0x220000 0 0 0 0 world0 0 ⟨0, 0⟩ 1 rfl rfl (by decide)).1
  rw [h]
  exact ⟨rfl, rfl, rfl⟩


/-- C3. Synchronous mode with a byte-count output: when the dispatch returns STATUS_PENDING
and the wait on hDevice (NtWaitForSingleObject, not alertable) returns a success status,
the final status is the one found in the local completion record after the wait.  If that
is a success status and the record holds byte count B, DeviceIoControl returns TRUE and
stores B (cut to a DWORD, so B itself when it fits 32 bits); if it is not, the call returns
FALSE with the last error taken from the record status, although the dispatch and the wait
both returned success statuses. -/
theorem DeviceIoControl_sync_pending_then_wait (K : Kernel σ) (hDevice : HANDLE) (c : DWORD)
    (lpInBuffer : LPVOID) (nInBufferSize : DWORD) (lpOutBuffer : LPVOID)
    (nOutBufferSize : DWORD) (w : World σ) (blk1 : IO_STATUS_BLOCK) (k1 : σ)
    (wst : NTSTATUS) (blk2 : IO_STATUS_BLOCK) (k2 : σ)
    (hd : K.service (classify c)
            (syncArgs hDevice c lpInBuffer nInBufferSize lpOutBuffer nOutBufferSize)
            w.Iosb w.kernel = (STATUS_PENDING, blk1, k1))
    (hw : K.NtWaitForSingleObject hDevice false blk1 k1 = (wst, blk2, k2))
    (hws : NT_SUCCESS wst = true) :
    (NT_SUCCESS blk2.Status = true →
      DeviceIoControl K hDevice c lpInBuffer nInBufferSize lpOutBuffer nOutBufferSize
          Ptr.ref Ptr.NULL w
        = Outcome.returned true
            { kernel := k2, Overlapped := w.Overlapped, Iosb := blk2,
              Bytes := blk2.Information % 2 ^ 32, LastError := w.LastError,
              trace := w.trace ++
                [Effect.dispatch (classify c)
                   (syncArgs hDevice c lpInBuffer nInBufferSize lpOutBuffer nOutBufferSize)
                   w.Iosb,
                 Effect.NtWaitForSingleObject hDevice false,
                 Effect.StoreBytes (blk2.Information % 2 ^ 32)] }
      ∧ (blk2.Information < 2 ^ 32 →
          (DeviceIoControl K hDevice c lpInBuffer nInBufferSize lpOutBuffer nOutBufferSize
            Ptr.ref Ptr.NULL w).world.Bytes = blk2.Information))
    ∧ (NT_SUCCESS blk2.Status = false →
        (DeviceIoControl K hDevice c lpInBuffer nInBufferSize lpOutBuffer nOutBufferSize
          Ptr.ref Ptr.NULL w).ret = some false
        ∧ (DeviceIoControl K hDevice c lpInBuffer nInBufferSize lpOutBuffer nOutBufferSize
          Ptr.ref Ptr.NULL w).world.LastError = K.RtlNtStatusToDosError blk2.Status) := by
  constructor
  · intro hb
    have main : DeviceIoControl K hDevice c lpInBuffer nInBufferSize lpOutBuffer
          nOutBufferSize Ptr.ref Ptr.NULL w
        = Outcome.returned true
            { kernel := k2, Overlapped := w.Overlapped, Iosb := blk2,
              Bytes := blk2.Information % 2 ^ 32, LastError := w.LastError,
              trace := w.trace ++
                [Effect.dispatch (classify c)
                   (syncArgs hDevice c lpInBuffer nInBufferSize lpOutBuffer nOutBufferSize)
                   w.Iosb,
                 Effect.NtWaitForSingleObject hDevice false,
                 Effect.StoreBytes (blk2.Information % 2 ^ 32)] } := by
      unfold DeviceIoControl
      by_cases hc : c >>> 16 = FILE_DEVICE_FILE_SYSTEM <;>
        simp [hc, classify, Kernel.service, syncArgs] at hd <;>
        simp [hc, hd, hw, hws, hb, classify, syncArgs, Effect.dispatch, callNtFsControlFile,
          callNtDeviceIoControlFile, callNtWaitForSingleObject, storeBytes, writeBytes,
          World.emit, World.setBlock, World.block]
    refine ⟨main, fun hB => ?_⟩
    rw [main]
    exact Nat.mod_eq_of_lt hB
  · intro hb
    unfold DeviceIoControl
    by_cases hc : c >>> 16 = FILE_DEVICE_FILE_SYSTEM <;>
      simp [hc, classify, Kernel.service, syncArgs] at hd <;>
      simp [hc, hd, hw, hws, hb, classify, syncArgs, Effect.dispatch, callNtFsControlFile,
        callNtDeviceIoControlFile, callNtWaitForSingleObject, storeBytes, writeBytes,
        World.emit, World.setBlock, World.block] <;>
      split_ifs <;>
      simp [Outcome.ret, Outcome.world, SetLastErrorByStatus]

/-- C3, run: the dispatch returns STATUS_PENDING, the wait returns 0 and leaves the record
at success with 24 bytes. -/
theorem DeviceIoControl_sync_pending_then_wait_witness :
    (DeviceIoControl (scripted 0x103 none 0 (some ⟨0, 24⟩)) 7 0x90000 0 0 0 0
        Ptr.ref Ptr.NULL world0).ret = some true
    ∧ (DeviceIoControl (scripted 0x103 none 0 (some ⟨0, 24⟩)) 7 0x90000 0 0 0 0
        Ptr.ref Ptr.NULL world0).world.Bytes = 24 := by
  have h := ((DeviceIoControl_sync_pending_then_wait (scripted 0x103 none 0 (some ⟨0, 24⟩))
    7 0x90000 0 0 0 0 world0 ⟨0xDEAD, 0xBEEF⟩ 1 0 ⟨0, 24⟩ 2 rfl rfl rfl).1 rfl).1
  rw [h]
  exact ⟨rfl, rfl⟩

/-- C4. Asynchronous mode: when the dispatch returns STATUS_PENDING, DeviceIoControl
returns FALSE with the last error set by SetLastErrorByStatus(STATUS_PENDING), that is to
the table entry of STATUS_PENDING (ERROR_IO_PENDING whenever the table maps it so).  It
calls no wait, and its only store to the Internal field is the initial STATUS_PENDING: the
field is left as the dispatch left it. -/
theorem DeviceIoControl_async_pending (K : Kernel σ) (hDevice : HANDLE) (c : DWORD)
    (lpInBuffer : LPVOID) (nInBufferSize : DWORD) (lpOutBuffer : LPVOID)
    (nOutBufferSize : DWORD) (lpBytesReturned : Ptr) (w : World σ)
    (blk : IO_STATUS_BLOCK) (k : σ)
    (hd : K.service (classify c)
            (asyncArgs hDevice c lpInBuffer nInBufferSize lpOutBuffer nOutBufferSize
              w.Overlapped.hEvent)
            ⟨STATUS_PENDING, w.Overlapped.InternalHigh⟩ w.kernel = (STATUS_PENDING, blk, k)) :
    (DeviceIoControl K hDevice c lpInBuffer nInBufferSize lpOutBuffer nOutBufferSize
        lpBytesReturned Ptr.ref w).ret = some false
    ∧ (DeviceIoControl K hDevice c lpInBuffer nInBufferSize lpOutBuffer nOutBufferSize
        lpBytesReturned Ptr.ref w).world.LastError = K.RtlNtStatusToDosError STATUS_PENDING
    ∧ (K.RtlNtStatusToDosError STATUS_PENDING = ERROR_IO_PENDING →
        (DeviceIoControl K hDevice c lpInBuffer nInBufferSize lpOutBuffer nOutBufferSize
          lpBytesReturned Ptr.ref w).world.LastError = ERROR_IO_PENDING)
    ∧ ((DeviceIoControl K hDevice c lpInBuffer nInBufferSize lpOutBuffer nOutBufferSize
        lpBytesReturned Ptr.ref w).effects w).filter Effect.setsLastError
        = [Effect.SetLastErrorByStatus STATUS_PENDING]
    ∧ ((DeviceIoControl K hDevice c lpInBuffer nInBufferSize lpOutBuffer nOutBufferSize
        lpBytesReturned Ptr.ref w).effects w).filter Effect.isWait = []
    ∧ ((DeviceIoControl K hDevice c lpInBuffer nInBufferSize lpOutBuffer nOutBufferSize
        lpBytesReturned Ptr.ref w).effects w).filter Effect.isStoreInternal
        = [Effect.StoreInternal STATUS_PENDING]
    ∧ (DeviceIoControl K hDevice c lpInBuffer nInBufferSize lpOutBuffer nOutBufferSize
        lpBytesReturned Ptr.ref w).world.Overlapped.Internal = blk.Status := by
  have hpe : NT_ERROR STATUS_PENDING = false := by decide
  rw [DeviceIoControl_async_eq K hDevice c lpInBuffer nInBufferSize lpOutBuffer
    nOutBufferSize lpBytesReturned w STATUS_PENDING blk k hd]
  refine ⟨by simp [Outcome.ret], by simp [Outcome.world, SetLastErrorByStatus],
    fun h => by simp [Outcome.world, SetLastErrorByStatus, h], ?_, ?_, ?_,
    by simp [Outcome.world, SetLastErrorByStatus, World.emit, asyncWorld,
      OVERLAPPED.setBlock]⟩ <;>
    cases lpBytesReturned <;>
    simp [hpe, Outcome.effects, Outcome.world, SetLastErrorByStatus, World.emit, asyncWorld,
      List.filter_cons] <;>
    simp [Effect.setsLastError, Effect.isWait, Effect.isStoreInternal]

/-- C4, run: a pending dispatch on a descriptor with stale contents; the table of the run
maps STATUS_PENDING to ERROR_IO_PENDING. -/
theorem DeviceIoControl_async_pending_witness :
    (DeviceIoControl (scripted 0x103 none 0 none) 7 0x220000 0 0 0 0
        Ptr.ref Ptr.ref world0).ret = some false
    ∧ (DeviceIoControl (scripted 0x103 none 0 none) 7 0x220000 0 0 0 0
        Ptr.ref Ptr.ref world0).world.LastError = ERROR_IO_PENDING :=
  have h := DeviceIoControl_async_pending (scripted 0x103 none 0 none) 7 0x220000 0 0 0 0
    Ptr.ref world0 ⟨0x103, 77⟩ 1 rfl
  ⟨h.1, h.2.2.1 rfl⟩

/-- C5. Asynchronous mode, any input and any prior content of the descriptor: of the
stores to Internal and the dispatches, DeviceIoControl makes exactly two, in this order:
the store of STATUS_PENDING, then the dispatch, which is handed a record whose status is
STATUS_PENDING.  On return Internal holds what the dispatch left in the record it was
handed (STATUS_PENDING when it left the status alone), and the whole outcome is the same
whatever Internal held before the call. -/
theorem DeviceIoControl_async_sets_pending_first (K : Kernel σ) (hDevice : HANDLE)
    (c : DWORD) (lpInBuffer : LPVOID) (nInBufferSize : DWORD) (lpOutBuffer : LPVOID)
    (nOutBufferSize : DWORD) (lpBytesReturned : Ptr) (w : World σ) :
    ((DeviceIoControl K hDevice c lpInBuffer nInBufferSize lpOutBuffer nOutBufferSize
        lpBytesReturned Ptr.ref w).effects w).filter
        (fun e => e.isStoreInternal || e.plane.isSome)
      = [Effect.StoreInternal STATUS_PENDING,
         Effect.dispatch (classify c)
           (asyncArgs hDevice c lpInBuffer nInBufferSize lpOutBuffer nOutBufferSize
             w.Overlapped.hEvent)
           ⟨STATUS_PENDING, w.Overlapped.InternalHigh⟩]
    ∧ dispatchBlocks ((DeviceIoControl K hDevice c lpInBuffer nInBufferSize lpOutBuffer
        nOutBufferSize lpBytesReturned Ptr.ref w).effects w)
      = [⟨STATUS_PENDING, w.Overlapped.InternalHigh⟩]
    ∧ (DeviceIoControl K hDevice c lpInBuffer nInBufferSize lpOutBuffer nOutBufferSize
        lpBytesReturned Ptr.ref w).world.Overlapped.Internal
      = (K.service (classify c)
           (asyncArgs hDevice c lpInBuffer nInBufferSize lpOutBuffer nOutBufferSize
             w.Overlapped.hEvent)
           ⟨STATUS_PENDING, w.Overlapped.InternalHigh⟩ w.kernel).2.1.Status
    ∧ ∀ x : ULONG_PTR,
        DeviceIoControl K hDevice c lpInBuffer nInBufferSize lpOutBuffer nOutBufferSize
          lpBytesReturned Ptr.ref { w with Overlapped := { w.Overlapped with Internal := x } }
        = DeviceIoControl K hDevice c lpInBuffer nInBufferSize lpOutBuffer nOutBufferSize
          lpBytesReturned Ptr.ref w := by
  rcases hres : K.service (classify c)
      (asyncArgs hDevice c lpInBuffer nInBufferSize lpOutBuffer nOutBufferSize
        w.Overlapped.hEvent)
      ⟨STATUS_PENDING, w.Overlapped.InternalHigh⟩ w.kernel with ⟨st, blk, k⟩
  have hx : ∀ x : ULONG_PTR, K.service (classify c)
      (asyncArgs hDevice c lpInBuffer nInBufferSize lpOutBuffer nOutBufferSize
        ({ w with Overlapped := { w.Overlapped with Internal := x } } : World σ).Overlapped.hEvent)
      ⟨STATUS_PENDING,
        ({ w with Overlapped := { w.Overlapped with Internal := x } } : World σ).Overlapped.InternalHigh⟩
      ({ w with Overlapped := { w.Overlapped with Internal := x } } : World σ).kernel
      = (st, blk, k) := fun _ => hres
  refine ⟨?_, ?_, ?_, ?_⟩
  · rw [DeviceIoControl_async_eq K hDevice c lpInBuffer nInBufferSize lpOutBuffer
      nOutBufferSize lpBytesReturned w st blk k hres]
    simp only [asyncWorld]
    cases classify c <;> cases lpBytesReturned <;> split_ifs <;>
      simp [Outcome.effects, Outcome.world, SetLastErrorByStatus, World.emit,
        Effect.dispatch, Effect.isStoreInternal, Effect.plane]
  · rw [DeviceIoControl_async_eq K hDevice c lpInBuffer nInBufferSize lpOutBuffer
      nOutBufferSize lpBytesReturned w st blk k hres]
    simp only [asyncWorld]
    cases classify c <;> cases lpBytesReturned <;> split_ifs <;>
      simp [Outcome.effects, Outcome.world, SetLastErrorByStatus, World.emit,
        Effect.dispatch, dispatchBlocks, Effect.block]
  · rw [DeviceIoControl_async_eq K hDevice c lpInBuffer nInBufferSize lpOutBuffer
      nOutBufferSize lpBytesReturned w st blk k hres]
    split_ifs <;>
      simp [Outcome.world, SetLastErrorByStatus, World.emit, asyncWorld, OVERLAPPED.setBlock]
  · intro x
    rw [DeviceIoControl_async_eq K hDevice c lpInBuffer nInBufferSize lpOutBuffer
      nOutBufferSize lpBytesReturned w st blk k hres,
      DeviceIoControl_async_eq K hDevice c lpInBuffer nInBufferSize lpOutBuffer
      nOutBufferSize lpBytesReturned
      { w with Overlapped := { w.Overlapped with Internal := x } } st blk k (hx x)]
    simp [asyncWorld, OVERLAPPED.setBlock]

/-- C6. GetOverlappedResult with bWait FALSE on a descriptor whose Internal is
STATUS_PENDING returns FALSE with last error ERROR_IO_INCOMPLETE; its only effect is that
SetLastError: no wait, no store to the byte-count output, the descriptor as it was.  For
any call, the wait primitive is invoked exactly when Internal is STATUS_PENDING and bWait
is true (then once, for ever, on hEvent if non-null, else on hFile). -/
theorem GetOverlappedResult_pending_no_wait (K : Kernel σ) (hFile : HANDLE) (bWait : BOOL)
    (w : World σ) :
    (w.Overlapped.Internal = STATUS_PENDING →
      GetOverlappedResult K hFile false w
        = Outcome.returned false
            { w with LastError := ERROR_IO_INCOMPLETE,
                     trace := w.trace ++ [Effect.SetLastError ERROR_IO_INCOMPLETE] })
    ∧ ((GetOverlappedResult K hFile bWait w).effects w).filter Effect.isWait
        = if w.Overlapped.Internal = STATUS_PENDING ∧ bWait = true then
            [Effect.WaitForSingleObject
              (if w.Overlapped.hEvent ≠ 0 then w.Overlapped.hEvent else hFile) INFINITE]
          else [] := by
  constructor
  · intro h
    simp [GetOverlappedResult, h, SetLastError, World.emit]
  · unfold GetOverlappedResult
    by_cases h : w.Overlapped.Internal = STATUS_PENDING <;> cases bWait <;>
      simp only [h, SetLastError, SetLastErrorByStatus, callWaitForSingleObject, writeBytes,
        World.emit, Outcome.effects, Bool.not_true, Bool.not_false, if_true, if_false,
        beq_self_eq_true, Bool.false_eq_true, beq_iff_eq, and_true, and_false, true_and] <;>
      (try split_ifs) <;>
      simp [Outcome.world, Effect.isWait]

/-- C6, run: a pending descriptor polled without waiting. -/
theorem GetOverlappedResult_pending_no_wait_witness :
    GetOverlappedResult (scripted 0 none 0 (some ⟨0, 8⟩)) 7 false worldPending
      = Outcome.returned false
          { worldPending with LastError := ERROR_IO_INCOMPLETE,
                              trace := worldPending.trace
                                ++ [Effect.SetLastError ERROR_IO_INCOMPLETE] } :=
  (GetOverlappedResult_pending_no_wait (scripted 0 none 0 (some ⟨0, 8⟩)) 7 false
    worldPending).1 rfl

/-! ### GetOverlappedResult on a descriptor that is not pending -/

theorem GetOverlappedResult_terminal_eq (K : Kernel σ) (hFile : HANDLE) (bWait : BOOL)
    (w : World σ) (h : w.Overlapped.Internal ≠ STATUS_PENDING) :
    GetOverlappedResult K hFile bWait w
      = if NT_SUCCESS w.Overlapped.Internal = true then
          Outcome.returned true (writeBytes w.Overlapped.InternalHigh w)
        else
          Outcome.returned false
            (SetLastErrorByStatus K (w.Overlapped.Internal % 2 ^ 32)
              (writeBytes w.Overlapped.InternalHigh w)) := by
  unfold GetOverlappedResult
  by_cases hs : NT_SUCCESS w.Overlapped.Internal = true <;>
    simp [h, hs, writeBytes, World.emit]

/-- C7. GetOverlappedResult succeeds on a descriptor read with a success status and
InternalHigh = N, N fitting 32 bits: when the descriptor is so on entry and not pending,
the call returns TRUE and stores N, whatever hFile, hEvent and bWait are; when the
descriptor is pending, bWait is true and the wait returns 0 leaving the descriptor so, the
call returns TRUE and stores N as well. -/
theorem GetOverlappedResult_success (K : Kernel σ) (hFile : HANDLE) (bWait : BOOL)
    (w : World σ) (N : Nat) (hN : N < 2 ^ 32) :
    (w.Overlapped.Internal ≠ STATUS_PENDING → NT_SUCCESS w.Overlapped.Internal = true →
      w.Overlapped.InternalHigh = N →
      GetOverlappedResult K hFile bWait w
        = Outcome.returned true { w with Bytes := N, trace := w.trace ++ [Effect.StoreBytes N] })
    ∧ (∀ (blk : IO_STATUS_BLOCK) (e : DWORD) (k : σ),
        w.Overlapped.Internal = STATUS_PENDING →
        K.WaitForSingleObject (if w.Overlapped.hEvent ≠ 0 then w.Overlapped.hEvent else hFile)
          INFINITE w.Overlapped.asBlock w.LastError w.kernel = (0, blk, e, k) →
        NT_SUCCESS blk.Status = true → blk.Information = N →
        GetOverlappedResult K hFile true w
          = Outcome.returned true
              { kernel := k, Overlapped := w.Overlapped.setBlock blk, Iosb := w.Iosb,
                Bytes := N, LastError := e,
                trace := w.trace ++
                  [Effect.WaitForSingleObject
                     (if w.Overlapped.hEvent ≠ 0 then w.Overlapped.hEvent else hFile) INFINITE,
                   Effect.StoreBytes N] }) := by
  have hN2 : N < 4294967296 := hN
  have hmod : N % 4294967296 = N := Nat.mod_eq_of_lt hN2
  constructor
  · intro hp hs hh
    rw [GetOverlappedResult_terminal_eq K hFile bWait w hp]
    simp [hs, hh, hmod, writeBytes, World.emit]
  · intro blk e k hp hw hs hh
    unfold GetOverlappedResult
    have hwt : ¬ ((0 : Nat) = WAIT_TIMEOUT) := by decide
    simp only [ne_eq, ite_not] at hw
    simp [hp, hw, hs, hh, hmod, hwt, callWaitForSingleObject, writeBytes, World.emit,
      OVERLAPPED.setBlock]

/-- C7, run: a completed descriptor (success, 512 bytes) read without waiting, and a pending
one whose wait returns 0 after the completion wrote success and 8 bytes. -/
theorem GetOverlappedResult_success_witness :
    GetOverlappedResult (scripted 0 none 0 none) 7 false (worldDone 0 512)
      = Outcome.returned true
          { worldDone 0 512 with Bytes := 512,
                                 trace := (worldDone 0 512).trace ++ [Effect.StoreBytes 512] }
    ∧ (GetOverlappedResult (scripted 0 none 0 (some ⟨0, 8⟩)) 7 true worldPending).world.Bytes
      = 8 := by
  refine ⟨(GetOverlappedResult_success (scripted 0 none 0 none) 7 false (worldDone 0 512) 512
      (by decide)).1 (by decide) rfl rfl, ?_⟩
  rw [(GetOverlappedResult_success (scripted 0 none 0 (some ⟨0, 8⟩)) 7 true worldPending 8
      (by decide)).2 ⟨0, 8⟩ 42 1 rfl rfl rfl rfl]
  rfl

/-- C8. On a descriptor whose Internal is not STATUS_PENDING, two calls of
GetOverlappedResult in succession, with any hFile and bWait each, give the same boolean,
the same stored byte count and the same last error; both leave the descriptor as it was,
neither invokes a wait, and the second has the same effects as the first. -/
theorem GetOverlappedResult_idempotent (K : Kernel σ) (hFile1 hFile2 : HANDLE)
    (bWait1 bWait2 : BOOL) (w : World σ) (h : w.Overlapped.Internal ≠ STATUS_PENDING) :
    (GetOverlappedResult K hFile2 bWait2 (GetOverlappedResult K hFile1 bWait1 w).world).ret
      = (GetOverlappedResult K hFile1 bWait1 w).ret
    ∧ (GetOverlappedResult K hFile2 bWait2
        (GetOverlappedResult K hFile1 bWait1 w).world).world.Bytes
      = (GetOverlappedResult K hFile1 bWait1 w).world.Bytes
    ∧ (GetOverlappedResult K hFile2 bWait2
        (GetOverlappedResult K hFile1 bWait1 w).world).world.LastError
      = (GetOverlappedResult K hFile1 bWait1 w).world.LastError
    ∧ (GetOverlappedResult K hFile1 bWait1 w).world.Overlapped = w.Overlapped
    ∧ (GetOverlappedResult K hFile2 bWait2
        (GetOverlappedResult K hFile1 bWait1 w).world).world.Overlapped = w.Overlapped
    ∧ ((GetOverlappedResult K hFile1 bWait1 w).effects w).filter Effect.isWait = []
    ∧ ((GetOverlappedResult K hFile2 bWait2 (GetOverlappedResult K hFile1 bWait1 w).world).effects
        (GetOverlappedResult K hFile1 bWait1 w).world).filter Effect.isWait = []
    ∧ (GetOverlappedResult K hFile2 bWait2 (GetOverlappedResult K hFile1 bWait1 w).world).effects
        (GetOverlappedResult K hFile1 bWait1 w).world
      = (GetOverlappedResult K hFile1 bWait1 w).effects w := by
  have h1 : (GetOverlappedResult K hFile1 bWait1 w).world.Overlapped = w.Overlapped := by
    rw [GetOverlappedResult_terminal_eq K hFile1 bWait1 w h]
    split_ifs <;> simp [Outcome.world, writeBytes, SetLastErrorByStatus, World.emit]
  have h2 : (GetOverlappedResult K hFile1 bWait1 w).world.Overlapped.Internal
      ≠ STATUS_PENDING := by rw [h1]; exact h
  rw [GetOverlappedResult_terminal_eq K hFile2 bWait2 _ h2, h1]
  rw [GetOverlappedResult_terminal_eq K hFile1 bWait1 w h]
  by_cases hs : NT_SUCCESS w.Overlapped.Internal = true <;>
    simp [hs, Outcome.ret, Outcome.world, Outcome.effects, writeBytes, SetLastErrorByStatus,
      World.emit, Effect.isWait]

/-- C8, run: a descriptor that completed with STATUS_INVALID_HANDLE is read twice, first
with hFile 7 and no wait, then with hFile 9 and wait. -/
theorem GetOverlappedResult_idempotent_witness :
    (GetOverlappedResult (scripted 0 none 0 none) 9 true
        (GetOverlappedResult (scripted 0 none 0 none) 7 false
          (worldDone 0xC0000008 3)).world).ret
      = (GetOverlappedResult (scripted 0 none 0 none) 7 false (worldDone 0xC0000008 3)).ret :=
  (GetOverlappedResult_idempotent (scripted 0 none 0 none) 7 9 false true
    (worldDone 0xC0000008 3) (by decide)).1

/-- The statuses that are not successes are those of the warning class (top two bits 10)
and of the error class (top two bits 11). -/
theorem NT_SUCCESS_eq_false_iff (s : Nat) :
    NT_SUCCESS s = false ↔ ((s % 2 ^ 32) >>> 30 = 2 ∨ NT_ERROR s = true) := by
  have hlt : s % 2 ^ 32 < 4294967296 := Nat.mod_lt _ (by decide)
  simp only [NT_SUCCESS, NT_ERROR, Nat.shiftRight_eq_div_pow, decide_eq_false_iff_not,
    beq_iff_eq]
  generalize s % 2 ^ 32 = m at hlt ⊢
  norm_num
  omega

/-- C9, as stated, fails: on a dispatch that returns the warning-class status 0x80000005
(not in the error class, not STATUS_PENDING) the asynchronous call returns FALSE, with the
last error set from that status. -/
theorem DeviceIoControl_async_warning_returns_false :
    ((scripted 0x80000005 (some ⟨0x80000005, 16⟩) 0 none).service (classify 0x220000)
        (asyncArgs 7 0x220000 0 0 0 0 world0.Overlapped.hEvent)
        ⟨STATUS_PENDING, world0.Overlapped.InternalHigh⟩ world0.kernel).1 = 0x80000005
    ∧ NT_ERROR 0x80000005 = false
    ∧ (0x80000005 : NTSTATUS) ≠ STATUS_PENDING
    ∧ (DeviceIoControl (scripted 0x80000005 (some ⟨0x80000005, 16⟩) 0 none) 7 0x220000
        0 0 0 0 Ptr.ref Ptr.ref world0).ret = some false
    ∧ (DeviceIoControl (scripted 0x80000005 (some ⟨0x80000005, 16⟩) 0 none) 7 0x220000
        0 0 0 0 Ptr.ref Ptr.ref world0).world.LastError = 234 := by
  refine ⟨rfl, by decide, by decide, rfl, rfl⟩

/-- C9, amended. Asynchronous mode: DeviceIoControl returns FALSE, with the last error set
from the dispatch status, if and only if that status is not a success status (NT_SUCCESS
false: the warning class, top two bits 10, or the error class, top two bits 11) or is
STATUS_PENDING; for every other status, that is every success- or informational-class
status other than STATUS_PENDING, it returns TRUE and sets no last error. -/
theorem DeviceIoControl_async_result (K : Kernel σ) (hDevice : HANDLE) (c : DWORD)
    (lpInBuffer : LPVOID) (nInBufferSize : DWORD) (lpOutBuffer : LPVOID)
    (nOutBufferSize : DWORD) (lpBytesReturned : Ptr) (w : World σ)
    (st : NTSTATUS) (blk : IO_STATUS_BLOCK) (k : σ)
    (hd : K.service (classify c)
            (asyncArgs hDevice c lpInBuffer nInBufferSize lpOutBuffer nOutBufferSize
              w.Overlapped.hEvent)
            ⟨STATUS_PENDING, w.Overlapped.InternalHigh⟩ w.kernel = (st, blk, k)) :
    ((DeviceIoControl K hDevice c lpInBuffer nInBufferSize lpOutBuffer nOutBufferSize
        lpBytesReturned Ptr.ref w).ret = some false
      ↔ (NT_SUCCESS st = false ∨ st = STATUS_PENDING))
    ∧ ((DeviceIoControl K hDevice c lpInBuffer nInBufferSize lpOutBuffer nOutBufferSize
        lpBytesReturned Ptr.ref w).ret = some true
      ↔ (NT_SUCCESS st = true ∧ st ≠ STATUS_PENDING))
    ∧ (NT_SUCCESS st = false ↔ ((st % 2 ^ 32) >>> 30 = 2 ∨ NT_ERROR st = true))
    ∧ ((NT_SUCCESS st = false ∨ st = STATUS_PENDING) →
        (DeviceIoControl K hDevice c lpInBuffer nInBufferSize lpOutBuffer nOutBufferSize
          lpBytesReturned Ptr.ref w).world.LastError = K.RtlNtStatusToDosError st
        ∧ ((DeviceIoControl K hDevice c lpInBuffer nInBufferSize lpOutBuffer nOutBufferSize
          lpBytesReturned Ptr.ref w).effects w).filter Effect.setsLastError
          = [Effect.SetLastErrorByStatus st])
    ∧ ((NT_SUCCESS st = true ∧ st ≠ STATUS_PENDING) →
        (DeviceIoControl K hDevice c lpInBuffer nInBufferSize lpOutBuffer nOutBufferSize
          lpBytesReturned Ptr.ref w).world.LastError = w.LastError
        ∧ ((DeviceIoControl K hDevice c lpInBuffer nInBufferSize lpOutBuffer nOutBufferSize
          lpBytesReturned Ptr.ref w).effects w).filter Effect.setsLastError = []) := by
  rw [DeviceIoControl_async_eq K hDevice c lpInBuffer nInBufferSize lpOutBuffer
    nOutBufferSize lpBytesReturned w st blk k hd]
  have hcls : NT_SUCCESS st = false ↔ ((st % 2 ^ 32) >>> 30 = 2 ∨ NT_ERROR st = true) :=
    NT_SUCCESS_eq_false_iff st
  refine ⟨?_, ?_, hcls, ?_, ?_⟩
  · by_cases h : NT_SUCCESS st = false ∨ st = STATUS_PENDING <;> simp [h, Outcome.ret]
  · by_cases h : NT_SUCCESS st = false ∨ st = STATUS_PENDING
    · simp only [h, if_true, Outcome.ret]
      constructor
      · intro h2; cases h2
      · rintro ⟨h1, h2⟩
        rcases h with h | h
        · rw [h1] at h; cases h
        · exact absurd h h2
    · simp only [h, if_false, Outcome.ret, true_iff]
      constructor
      · cases hs : NT_SUCCESS st
        · exact absurd (Or.inl hs) h
        · rfl
      · exact fun hp => h (Or.inr hp)
  · intro h
    simp only [h, if_true, asyncWorld]
    cases classify c <;> cases lpBytesReturned <;> split_ifs <;>
      simp [Outcome.effects, Outcome.world, SetLastErrorByStatus, World.emit,
        Effect.dispatch, Effect.setsLastError]
  · intro h
    have h2 : ¬ (NT_SUCCESS st = false ∨ st = STATUS_PENDING) := by
      rintro (h3 | h3)
      · rw [h.1] at h3; cases h3
      · exact h.2 h3
    simp only [h2, if_false, asyncWorld]
    cases classify c <;> cases lpBytesReturned <;> split_ifs <;>
      simp [Outcome.effects, Outcome.world, World.emit, Effect.dispatch,
        Effect.setsLastError]

/-- C9 amended, run: an informational-class status (0x40000000) gives TRUE, through the
theorem. -/
theorem DeviceIoControl_async_result_witness :
    (DeviceIoControl (scripted 0x40000000 (some ⟨0x40000000, 16⟩) 0 none) 7 0x220000
        0 0 0 0 Ptr.ref Ptr.ref world0).ret = some true :=
  (DeviceIoControl_async_result (scripted 0x40000000 (some ⟨0x40000000, 16⟩) 0 none) 7
    0x220000 0 0 0 0 Ptr.ref world0 0x40000000 ⟨0x40000000, 16⟩ 1 rfl).2.1.2
    ⟨by decide, by decide⟩

/-- C10. GetOverlappedResult on a pending descriptor with bWait true, the wait primitive
being one whose wait for ever (INFINITE) does not time out: for every non-zero value
returned by the wait (WaitForSingleObject, for ever, on hEvent if non-null, else on hFile)
the call returns FALSE and its only effect is that wait.  It makes no SetLastError or
SetLastErrorByStatus call of its own (the last error is what the wait left), makes no store
to the byte-count output, and the descriptor's status is not translated: the descriptor is
as the wait left it and nothing of the outcome depends on its contents. -/
theorem GetOverlappedResult_wait_failure (K : Kernel σ) (hFile : HANDLE) (w : World σ)
    (ws : DWORD) (blk : IO_STATUS_BLOCK) (e : DWORD) (k : σ)
    (hinf : ∀ (h : HANDLE) (b : IO_STATUS_BLOCK) (err : DWORD) (s : σ),
      (K.WaitForSingleObject h INFINITE b err s).1 ≠ WAIT_TIMEOUT)
    (hp : w.Overlapped.Internal = STATUS_PENDING)
    (hw : K.WaitForSingleObject (if w.Overlapped.hEvent ≠ 0 then w.Overlapped.hEvent else hFile)
            INFINITE w.Overlapped.asBlock w.LastError w.kernel = (ws, blk, e, k))
    (h0 : ws ≠ 0) :
    GetOverlappedResult K hFile true w
      = Outcome.returned false
          { kernel := k, Overlapped := w.Overlapped.setBlock blk, Iosb := w.Iosb,
            Bytes := w.Bytes, LastError := e,
            trace := w.trace ++
              [Effect.WaitForSingleObject
                 (if w.Overlapped.hEvent ≠ 0 then w.Overlapped.hEvent else hFile)
                 INFINITE] }
    ∧ ((GetOverlappedResult K hFile true w).effects w).filter Effect.setsLastError = []
    ∧ ((GetOverlappedResult K hFile true w).effects w).filter Effect.isStoreBytes = []
    ∧ (GetOverlappedResult K hFile true w).world.LastError = e
    ∧ (GetOverlappedResult K hFile true w).world.Bytes = w.Bytes := by
  have ht : ws ≠ WAIT_TIMEOUT := by
    have h := hinf (if w.Overlapped.hEvent ≠ 0 then w.Overlapped.hEvent else hFile)
      w.Overlapped.asBlock w.LastError w.kernel
    rw [hw] at h
    exact h
  have main : GetOverlappedResult K hFile true w
      = Outcome.returned false
          { kernel := k, Overlapped := w.Overlapped.setBlock blk, Iosb := w.Iosb,
            Bytes := w.Bytes, LastError := e,
            trace := w.trace ++
              [Effect.WaitForSingleObject
                 (if w.Overlapped.hEvent ≠ 0 then w.Overlapped.hEvent else hFile)
                 INFINITE] } := by
    simp only [ne_eq, ite_not] at hw
    unfold GetOverlappedResult
    simp [hp, hw, h0, ht, callWaitForSingleObject, World.emit, OVERLAPPED.setBlock]
  rw [main]
  refine ⟨rfl, ?_, ?_, rfl, rfl⟩ <;>
    simp [Outcome.effects, Outcome.world, Effect.setsLastError, Effect.isStoreBytes]

/-- C10, run: the wait fails with WAIT_FAILED (0xFFFFFFFF) and leaves last error 6; the
wait of this kernel returns 0xFFFFFFFF always, so it does not time out. -/
theorem GetOverlappedResult_wait_failure_witness :
    GetOverlappedResult (scripted 0 none 0xFFFFFFFF none) 7 true worldPending
      = Outcome.returned false
          { kernel := 1, Overlapped := worldPending.Overlapped.setBlock ⟨0x103, 77⟩,
            Iosb := worldPending.Iosb, Bytes := worldPending.Bytes, LastError := 6,
            trace := worldPending.trace ++
              [Effect.WaitForSingleObject
                 (if worldPending.Overlapped.hEvent ≠ 0 then worldPending.Overlapped.hEvent
                  else 7)
                 INFINITE] } :=
  (GetOverlappedResult_wait_failure (scripted 0 none 0xFFFFFFFF none) 7 worldPending
    0xFFFFFFFF ⟨0x103, 77⟩ 6 1
    (fun _ _ _ _ => (by decide : (0xFFFFFFFF : Nat) ≠ 258)) rfl rfl (by decide)).1

/-- C11. Synchronous mode with a byte-count output, failure path.  The final status is the
dispatch status when that is not STATUS_PENDING; after a pending dispatch it is the status
of the local completion record when the wait returned a success status, else the wait
status.  Whenever the final status is not a success, DeviceIoControl returns FALSE with
the last error set from it by SetLastErrorByStatus, and it stores the completion record's
byte count (cut to a DWORD) in the output exactly when the status is not in the error
class; for an error-class status the output keeps its value and no store is made. -/
theorem DeviceIoControl_sync_failure (K : Kernel σ) (hDevice : HANDLE) (c : DWORD)
    (lpInBuffer : LPVOID) (nInBufferSize : DWORD) (lpOutBuffer : LPVOID)
    (nOutBufferSize : DWORD) (w : World σ) (st : NTSTATUS) (blk1 : IO_STATUS_BLOCK) (k1 : σ)
    (wst : NTSTATUS) (blk2 : IO_STATUS_BLOCK) (k2 : σ) (fin : NTSTATUS)
    (hd : K.service (classify c)
            (syncArgs hDevice c lpInBuffer nInBufferSize lpOutBuffer nOutBufferSize)
            w.Iosb w.kernel = (st, blk1, k1))
    (hw : K.NtWaitForSingleObject hDevice false blk1 k1 = (wst, blk2, k2))
    (hfin : fin = if NT_SUCCESS wst = true then blk2.Status else wst) :
    (NT_SUCCESS st = false →
      DeviceIoControl K hDevice c lpInBuffer nInBufferSize lpOutBuffer nOutBufferSize
          Ptr.ref Ptr.NULL w
        = Outcome.returned false
            { kernel := k1, Overlapped := w.Overlapped, Iosb := blk1,
              Bytes := if NT_ERROR st = true then w.Bytes else blk1.Information % 2 ^ 32,
              LastError := K.RtlNtStatusToDosError st,
              trace := w.trace ++
                ([Effect.dispatch (classify c)
                    (syncArgs hDevice c lpInBuffer nInBufferSize lpOutBuffer nOutBufferSize)
                    w.Iosb]
                 ++ (if NT_ERROR st = true then []
                     else [Effect.StoreBytes (blk1.Information % 2 ^ 32)])
                 ++ [Effect.SetLastErrorByStatus st]) })
    ∧ (st = STATUS_PENDING → NT_SUCCESS fin = false →
      DeviceIoControl K hDevice c lpInBuffer nInBufferSize lpOutBuffer nOutBufferSize
          Ptr.ref Ptr.NULL w
        = Outcome.returned false
            { kernel := k2, Overlapped := w.Overlapped, Iosb := blk2,
              Bytes := if NT_ERROR fin = true then w.Bytes else blk2.Information % 2 ^ 32,
              LastError := K.RtlNtStatusToDosError fin,
              trace := w.trace ++
                ([Effect.dispatch (classify c)
                    (syncArgs hDevice c lpInBuffer nInBufferSize lpOutBuffer nOutBufferSize)
                    w.Iosb,
                  Effect.NtWaitForSingleObject hDevice false]
                 ++ (if NT_ERROR fin = true then []
                     else [Effect.StoreBytes (blk2.Information % 2 ^ 32)])
                 ++ [Effect.SetLastErrorByStatus fin]) }) := by
  have hps : NT_SUCCESS STATUS_PENDING = true := by decide
  constructor
  · intro hs
    have hp : st ≠ STATUS_PENDING := by
      intro h; rw [h, hps] at hs; cases hs
    unfold DeviceIoControl
    by_cases hc : c >>> 16 = FILE_DEVICE_FILE_SYSTEM <;>
      simp [hc, classify, Kernel.service, syncArgs] at hd <;>
      by_cases he : NT_ERROR st = true <;>
      simp [hc, hd, hs, hp, he, classify, syncArgs, Effect.dispatch, callNtFsControlFile,
        callNtDeviceIoControlFile, storeBytes, writeBytes, SetLastErrorByStatus,
        World.emit, World.setBlock, World.block]
  · intro hp hs
    subst hp
    by_cases hws : NT_SUCCESS wst = true
    · simp only [hws, if_true] at hfin
      subst hfin
      unfold DeviceIoControl
      by_cases hc : c >>> 16 = FILE_DEVICE_FILE_SYSTEM <;>
        simp [hc, classify, Kernel.service, syncArgs] at hd <;>
        by_cases he : NT_ERROR blk2.Status = true <;>
        simp [hc, hd, hw, hws, hs, he, classify, syncArgs, Effect.dispatch,
          callNtFsControlFile, callNtDeviceIoControlFile, callNtWaitForSingleObject,
          storeBytes, writeBytes, SetLastErrorByStatus, World.emit, World.setBlock,
          World.block]
    · simp only [hws, if_false] at hfin
      subst hfin
      unfold DeviceIoControl
      by_cases hc : c >>> 16 = FILE_DEVICE_FILE_SYSTEM <;>
        simp [hc, classify, Kernel.service, syncArgs] at hd <;>
        by_cases he : NT_ERROR fin = true <;>
        simp [hc, hd, hw, hws, hs, he, classify, syncArgs, Effect.dispatch,
          callNtFsControlFile, callNtDeviceIoControlFile, callNtWaitForSingleObject,
          storeBytes, writeBytes, SetLastErrorByStatus, World.emit, World.setBlock,
          World.block]

/-- C11, run: a dispatch that fails at once with the warning-class status 0x80000005 and
16 bytes in the record, then a pending dispatch whose wait fails with the error-class
status 0xC0000008. -/
theorem DeviceIoControl_sync_failure_witness :
    ((DeviceIoControl (scripted 0x80000005 (some ⟨0x80000005, 16⟩) 0 none) 7 0x220000
        0 0 0 0 Ptr.ref Ptr.NULL world0).ret = some false
      ∧ (DeviceIoControl (scripted 0x80000005 (some ⟨0x80000005, 16⟩) 0 none) 7 0x220000
        0 0 0 0 Ptr.ref Ptr.NULL world0).world.Bytes = 16
      ∧ (DeviceIoControl (scripted 0x80000005 (some ⟨0x80000005, 16⟩) 0 none) 7 0x220000
        0 0 0 0 Ptr.ref Ptr.NULL world0).world.LastError = 234)
    ∧ ((DeviceIoControl (scripted 0x103 none 0xC0000008 (some ⟨0, 24⟩)) 7 0x220000
        0 0 0 0 Ptr.ref Ptr.NULL world0).ret = some false
      ∧ (DeviceIoControl (scripted 0x103 none 0xC0000008 (some ⟨0, 24⟩)) 7 0x220000
        0 0 0 0 Ptr.ref Ptr.NULL world0).world.Bytes = 12345
      ∧ (DeviceIoControl (scripted 0x103 none 0xC0000008 (some ⟨0, 24⟩)) 7 0x220000
        0 0 0 0 Ptr.ref Ptr.NULL world0).world.LastError = 6) := by
  have h1 := (DeviceIoControl_sync_failure
    (scripted 0x80000005 (some ⟨0x80000005, 16⟩) 0 none) 7 0x220000 0 0 0 0 world0
    0x80000005 ⟨0x80000005, 16⟩ 1 0 ⟨0x80000005, 16⟩ 2 0x80000005 rfl rfl rfl).1 (by decide)
  have h2 := (DeviceIoControl_sync_failure
    (scripted 0x103 none 0xC0000008 (some ⟨0, 24⟩)) 7 0x220000 0 0 0 0 world0
    0x103 ⟨0xDEAD, 0xBEEF⟩ 1 0xC0000008 ⟨0, 24⟩ 2 0xC0000008 rfl rfl rfl).2 rfl (by decide)
  rw [h1, h2]
  exact ⟨⟨rfl, rfl, rfl⟩, ⟨rfl, rfl, rfl⟩⟩

/-! ### The synchronous path without a byte-count output -/

/-- The synchronous path stores the byte count without testing the output pointer: with
lpBytesReturned NULL a call whose dispatch returns at once (not STATUS_PENDING) raises an
access violation unless the status is in the error class, in which case it does what the
call with the output present does. -/
theorem DeviceIoControl_sync_null_output (K : Kernel σ) (hDevice : HANDLE) (c : DWORD)
    (lpInBuffer : LPVOID) (nInBufferSize : DWORD) (lpOutBuffer : LPVOID)
    (nOutBufferSize : DWORD) (w : World σ) (st : NTSTATUS) (blk : IO_STATUS_BLOCK) (k : σ)
    (hd : K.service (classify c)
            (syncArgs hDevice c lpInBuffer nInBufferSize lpOutBuffer nOutBufferSize)
            w.Iosb w.kernel = (st, blk, k))
    (hp : st ≠ STATUS_PENDING) :
    (NT_ERROR st = false →
      DeviceIoControl K hDevice c lpInBuffer nInBufferSize lpOutBuffer nOutBufferSize
          Ptr.NULL Ptr.NULL w
        = Outcome.fault
            { kernel := k, Overlapped := w.Overlapped, Iosb := blk, Bytes := w.Bytes,
              LastError := w.LastError,
              trace := w.trace ++
                [Effect.dispatch (classify c)
                   (syncArgs hDevice c lpInBuffer nInBufferSize lpOutBuffer nOutBufferSize)
                   w.Iosb,
                 Effect.AccessViolation] })
    ∧ (NT_ERROR st = true →
      DeviceIoControl K hDevice c lpInBuffer nInBufferSize lpOutBuffer nOutBufferSize
          Ptr.NULL Ptr.NULL w
        = DeviceIoControl K hDevice c lpInBuffer nInBufferSize lpOutBuffer nOutBufferSize
          Ptr.ref Ptr.NULL w) := by
  constructor
  · intro he
    unfold DeviceIoControl
    by_cases hc : c >>> 16 = FILE_DEVICE_FILE_SYSTEM <;>
      simp [hc, classify, Kernel.service, syncArgs] at hd <;>
      by_cases hs : NT_SUCCESS st = true <;>
      simp [hc, hd, hs, hp, he, classify, syncArgs, Effect.dispatch, callNtFsControlFile,
        callNtDeviceIoControlFile, storeBytes, World.emit, World.setBlock, World.block]
  · intro he
    have hs : NT_SUCCESS st = false := (NT_SUCCESS_eq_false_iff st).2 (Or.inr he)
    unfold DeviceIoControl
    by_cases hc : c >>> 16 = FILE_DEVICE_FILE_SYSTEM <;>
      simp [hc, classify, Kernel.service, syncArgs] at hd <;>
      simp [hc, hd, hs, hp, he, classify, syncArgs, callNtFsControlFile,
        callNtDeviceIoControlFile, World.emit, World.setBlock, World.block]

/-- C12, failing input: a synchronous call with lpBytesReturned NULL on a device that
reports success with 0 bytes.  The dispatch is made and the store of the byte count then
goes through the NULL pointer: the call raises an access violation and returns nothing,
where the same call with the output present returns TRUE.  The asynchronous call with
lpBytesReturned NULL returns TRUE and makes no byte-count store. -/
theorem DeviceIoControl_sync_null_output_faults :
    (DeviceIoControl (scripted 0 (some ⟨0, 0⟩) 0 none) 7 0x220000 0 0 0 0
        Ptr.NULL Ptr.NULL world0).ret = none
    ∧ (DeviceIoControl (scripted 0 (some ⟨0, 0⟩) 0 none) 7 0x220000 0 0 0 0
        Ptr.NULL Ptr.NULL world0).effects world0
      = [Effect.NtDeviceIoControlFile (syncArgs 7 0x220000 0 0 0 0) ⟨0xDEAD, 0xBEEF⟩,
         Effect.AccessViolation]
    ∧ (DeviceIoControl (scripted 0 (some ⟨0, 0⟩) 0 none) 7 0x220000 0 0 0 0
        Ptr.ref Ptr.NULL world0).ret = some true
    ∧ (DeviceIoControl (scripted 0 (some ⟨0, 0⟩) 0 none) 7 0x220000 0 0 0 0
        Ptr.NULL Ptr.ref world0).ret = some true
    ∧ ((DeviceIoControl (scripted 0 (some ⟨0, 0⟩) 0 none) 7 0x220000 0 0 0 0
        Ptr.NULL Ptr.ref world0).effects world0).filter Effect.isStoreBytes = [] := by
  refine ⟨rfl, rfl, rfl, rfl, rfl⟩

end Kernel32
